import Mathlib

/-!
Verification of the foolrenderer teaser-video drivers.

The repository holds two frame drivers, `anim_violin.c` (the violin
animation) and an eagle driver of the same shape.  Both drive the
foolrenderer software rasterization pipeline, whose sources are not part
of this repository; where a claim depends on pipeline behaviour we model
the missing operation from the specification and say so in the doc
comment.  All real-valued quantities (C `float`s) are modelled exactly
over `ℚ`; every numeric literal the claims depend on is either exactly
representable in binary floating point or quoted by the specification as
an exact algebraic expression.
-/

/-- Modelled from the spec: a 3-component vector of reals
(`math/vector.h` is not among this repository's sources). -/
structure vector3 where
  x : ℚ
  y : ℚ
  z : ℚ
  deriving DecidableEq

/-- Modelled from the spec: a 4-component homogeneous vector of reals
(`math/vector.h` is not among this repository's sources). -/
structure vector4 where
  x : ℚ
  y : ℚ
  z : ℚ
  w : ℚ
  deriving DecidableEq

/-- Modelled from the spec: a 4×4 matrix of reals stored as four rows
(`math/matrix.h` is not among this repository's sources). -/
structure matrix4x4 where
  r0 : vector4
  r1 : vector4
  r2 : vector4
  r3 : vector4
  deriving DecidableEq

/-- Dot product of two 4-component vectors. -/
def vector4_dot (a b : vector4) : ℚ :=
  a.x * b.x + a.y * b.y + a.z * b.z + a.w * b.w

/-- Modelled from the spec: matrix-vector product, rows of `m` against `v`. -/
def matrix4x4_multiply_vector4 (m : matrix4x4) (v : vector4) : vector4 :=
  ⟨vector4_dot m.r0 v, vector4_dot m.r1 v, vector4_dot m.r2 v, vector4_dot m.r3 v⟩

/-- Column `0` of a matrix, as a vector. -/
def matrix4x4_col0 (m : matrix4x4) : vector4 := ⟨m.r0.x, m.r1.x, m.r2.x, m.r3.x⟩

/-- Column `1` of a matrix, as a vector. -/
def matrix4x4_col1 (m : matrix4x4) : vector4 := ⟨m.r0.y, m.r1.y, m.r2.y, m.r3.y⟩

/-- Column `2` of a matrix, as a vector. -/
def matrix4x4_col2 (m : matrix4x4) : vector4 := ⟨m.r0.z, m.r1.z, m.r2.z, m.r3.z⟩

/-- Column `3` of a matrix, as a vector. -/
def matrix4x4_col3 (m : matrix4x4) : vector4 := ⟨m.r0.w, m.r1.w, m.r2.w, m.r3.w⟩

/-- Modelled from the spec: standard row-by-column 4×4 matrix product
(`math/matrix.h` is not among this repository's sources). -/
def matrix4x4_multiply (a b : matrix4x4) : matrix4x4 :=
  let row := fun r : vector4 =>
    (⟨vector4_dot r (matrix4x4_col0 b), vector4_dot r (matrix4x4_col1 b),
      vector4_dot r (matrix4x4_col2 b), vector4_dot r (matrix4x4_col3 b)⟩ : vector4)
  ⟨row a.r0, row a.r1, row a.r2, row a.r3⟩

/-- The all-zero 4×4 matrix.  A C object with static storage duration and no
initializer is zero-initialized, so this is the value of the drivers'
`static matrix4x4 light_world2clip;` definition. -/
def matrix4x4_zero : matrix4x4 :=
  ⟨⟨0, 0, 0, 0⟩, ⟨0, 0, 0, 0⟩, ⟨0, 0, 0, 0⟩, ⟨0, 0, 0, 0⟩⟩

/-- The scale-bias matrix built in `render_model` of both drivers
(src/anim_violin.c lines 98-101 and the eagle driver lines 98-101):
it remaps each component of position from `[-1, 1]` to `[0, 1]`.
`0.5f` is exactly representable in binary floating point. -/
def scale_bias : matrix4x4 :=
  ⟨⟨1/2, 0, 0, 1/2⟩,
   ⟨0, 1/2, 0, 1/2⟩,
   ⟨0, 0, 1/2, 1/2⟩,
   ⟨0, 0, 0, 1⟩⟩

/-- Apply a 4×4 matrix to a 3D point as a homogeneous transform: extend the
point with `w = 1`, multiply, then perform the perspective divide by the
resulting `w` component. -/
def applyHomogeneous (m : matrix4x4) (p : vector3) : vector3 :=
  let c := matrix4x4_multiply_vector4 m ⟨p.x, p.y, p.z, 1⟩
  ⟨c.x / c.w, c.y / c.w, c.z / c.w⟩

/-- Modelled from the spec: linear interpolation `a + (b - a) * t`
(`float_lerp` lives in `math/math_utility.h`, not among this repository's
sources; the spec describes the drivers as "linearly interpolating"). -/
def float_lerp (a b t : ℚ) : ℚ :=
  a + (b - a) * t

/-- `ANIMATION_TIME` from both drivers: `4.5f`, exactly representable. -/
def ANIMATION_TIME : ℚ := 9/2

/-- `FPS` from both drivers. -/
def FPS : ℚ := 30

/-- The frame count computed by both drivers'
`int frame_count = (int)(ANIMATION_TIME * FPS);` — the product `4.5 * 30`
is exact in floating point and the C cast truncates toward zero. -/
def frame_count : ℕ := ⌊ANIMATION_TIME * FPS⌋.toNat

/-- The eagle driver's `rotation_y_end = -0.94f` (the exact decimal the
source spells; the driver logic is checked over exact rationals). -/
def rotation_y_end : ℚ := -94/100

/-- The rotation angle the eagle driver computes at frame `i`
(eagle driver lines 169-171): `t = (float)i / frame_count` followed by
`rotation_y = float_lerp(rotation_y_start, rotation_y_end, t)` with
`rotation_y_start = 0.0f`. -/
def eagle_rotation (i : ℕ) : ℚ :=
  float_lerp 0 rotation_y_end ((i : ℚ) / (frame_count : ℚ))

/-- Modelled from the spec (§4.2 step 5): the perspective-correct
interpolation weights.  Given the raw barycentric weights `b0 b1 b2` of a
covered pixel and the three vertices' clip-space `w` components, each
barycentric weight is divided by its vertex's clip-space `w` and the
results are renormalized to sum to 1. -/
def perspectiveWeights (b0 b1 b2 w0 w1 w2 : ℚ) : ℚ × ℚ × ℚ :=
  let c0 := b0 / w0
  let c1 := b1 / w1
  let c2 := b2 / w2
  let s := c0 + c1 + c2
  (c0 / s, c1 / s, c2 / s)

/-- Modelled from the spec (§4.2 step 5): a weight triple linearly blends a
varying field carried by the three vertices. -/
def interpolateVarying (p : ℚ × ℚ × ℚ) (v0 v1 v2 : ℚ) : ℚ :=
  p.1 * v0 + p.2.1 * v1 + p.2.2 * v2

/-- Modelled from the spec (§4.2 step 4): the standard edge function of the
directed edge `a → b` evaluated at point `p`, over 2D projected (viewport)
coordinates. -/
def edge_function (a b p : ℚ × ℚ) : ℚ :=
  (b.1 - a.1) * (p.2 - a.2) - (b.2 - a.2) * (p.1 - a.1)

/-- The edge-function determinant of a projected triangle: the edge function
of `v0 → v1` at `v2`, which equals twice the triangle's signed area. -/
def triangleDet (v0 v1 v2 : ℚ × ℚ) : ℚ :=
  edge_function v0 v1 v2

/-- The signed area of the projected triangle. -/
def signedArea (v0 v1 v2 : ℚ × ℚ) : ℚ :=
  triangleDet v0 v1 v2 / 2

/-- Modelled from the spec (§4.2 steps 3-4 and edge cases): the set of
pixel centers from the candidate list (the bounding-box pixels) covered by
the projected triangle.  The edge-function determinant is guarded before
any reciprocal is taken: a degenerate triangle covers nothing; otherwise a
pixel is covered iff all three normalized barycentric weights are
non-negative. -/
def coveredPixels (v0 v1 v2 : ℚ × ℚ) (candidates : List (ℚ × ℚ)) : List (ℚ × ℚ) :=
  let d := triangleDet v0 v1 v2
  if d = 0 then []
  else candidates.filter fun p =>
    0 ≤ edge_function v1 v2 p / d ∧ 0 ≤ edge_function v2 v0 p / d ∧
      0 ≤ edge_function v0 v1 p / d

/-- Modelled from the spec (§3, §4.1): a color texture — dimensions plus a
pixel store, the pixel at `(x, y)` being an RGBA quadruple. -/
structure colorTexture where
  width : ℕ
  height : ℕ
  pix : ℕ → ℕ → vector4

/-- Modelled from the spec (§3, §4.1): a `DEPTH_FLOAT` texture — dimensions
plus a pixel store of single depth values. -/
structure depthTexture where
  width : ℕ
  height : ℕ
  pix : ℕ → ℕ → ℚ

/-- Modelled from the spec (§3): a framebuffer binding a color attachment
and a depth attachment, as the drivers' main framebuffer binds both. -/
structure framebufferM where
  color : colorTexture
  depth : depthTexture

/-- Modelled from the spec (§4.1): `clear(framebuffer, color, depth)` writes
the clear value to every pixel of each attached texture that the call
targets. -/
def clear_framebuffer (fb : framebufferM) (c : vector4) (d : ℚ) : framebufferM :=
  { color := { fb.color with pix := fun _ _ => c },
    depth := { fb.depth with pix := fun _ _ => d } }

/-- Clamp a rational to the interval `[0, 1]`. -/
def clamp01 (q : ℚ) : ℚ := max 0 (min 1 q)

/-- Modelled from the spec (§4.1): sampling a depth texture at normalized
coordinates — the coordinates are taken in `[0, 1]` and mapped to the texel
grid, clamped to the texture's extent.  A 1×1 texture always returns its
single texel. -/
def sample_depth (t : depthTexture) (u v : ℚ) : ℚ :=
  t.pix (min ⌊clamp01 u * t.width⌋.toNat (t.width - 1))
    (min ⌊clamp01 v * t.height⌋.toNat (t.height - 1))

/-- Modelled from the spec (§4.4, "Shadow factor"): project the world
position by the scale-biased world→light matrix to obtain the shadow-map UV
and the reference depth in `[0, 1]`; sample the shadow map's stored depth at
that UV; the factor is `1.0` (fully lit) if the reference depth is at most
the stored depth plus the bias, else `0.0`. -/
def shadow_factor (world2light : matrix4x4) (world_position : vector3)
    (shadow_map : depthTexture) (bias : ℚ) : ℚ :=
  let p := applyHomogeneous world2light world_position
  let reference_depth := clamp01 p.z
  let stored_depth := sample_depth shadow_map (clamp01 p.x) (clamp01 p.y)
  if reference_depth ≤ stored_depth + bias then 1 else 0

/-- The 1×1 `DEPTH_FLOAT` shadow map both drivers create and pre-fill with
`1.0` in `initialize_rendering` (src/anim_violin.c lines 53-55 and the eagle
driver lines 53-55). -/
def default_shadow_map : depthTexture :=
  { width := 1, height := 1, pix := fun _ _ => 1 }

/-- Modelled from the spec: a 3×3 matrix of reals, as used for direction
and normal transforms (`math/matrix.h` is not among this repository's
sources). -/
structure matrix3x3 where
  r0 : vector3
  r1 : vector3
  r2 : vector3
  deriving DecidableEq

/-- Modelled from the spec: the upper-left 3×3 block of a 4×4 matrix. -/
def matrix4x4_to_3x3 (m : matrix4x4) : matrix3x3 :=
  ⟨⟨m.r0.x, m.r0.y, m.r0.z⟩, ⟨m.r1.x, m.r1.y, m.r1.z⟩, ⟨m.r2.x, m.r2.y, m.r2.z⟩⟩

/-- The uniform block of the standard shader, with the fields both drivers'
`render_model` assigns (`shaders/standard.h` is not among this repository's
sources; the field list is observable from the assignments in
src/anim_violin.c lines 83-112 and the eagle driver lines 83-112). -/
structure standard_uniform where
  local2world : matrix4x4
  world2clip : matrix4x4
  local2world_direction : matrix3x3
  local2world_normal : matrix3x3
  camera_position : vector3
  light_direction : vector3
  illuminance : vector3
  world2light : matrix4x4
  shadow_map : depthTexture
  ambient_luminance : vector3
  base_color : vector3
  metallic : ℚ
  roughness : ℚ
  reflectance : ℚ

/-- The drivers' `static matrix4x4 light_world2clip;` (src/anim_violin.c
line 49 and the eagle driver line 49).  It has static storage duration, no
initializer, and no assignment anywhere in either translation unit, so it
holds the zero-initialized value — the all-zero matrix — for the whole
run. -/
def light_world2clip : matrix4x4 := matrix4x4_zero

/-- The uniform block `render_model` builds each frame (src/anim_violin.c
lines 83-112 and the eagle driver lines 83-112).  The matrices produced by
the math library from the frame parameters (`matrix4x4_rotate_y`,
`matrix4x4_look_at`, `matrix4x4_perspective`, `vector3_normalize` involve
trigonometry and square roots whose sources are not in this repository) are
taken as inputs, as are the per-driver material constants; the
`world2light` field is exactly line 102:
`matrix4x4_multiply(scale_bias, light_world2clip)`. -/
def mkStandardUniform (local2world world2clip : matrix4x4)
    (camera_position light_direction_normalized illuminance
      ambient_luminance base_color : vector3)
    (metallic roughness reflectance : ℚ) : standard_uniform :=
  { local2world := local2world
    world2clip := world2clip
    local2world_direction := matrix4x4_to_3x3 local2world
    local2world_normal := matrix4x4_to_3x3 local2world
    camera_position := camera_position
    light_direction := light_direction_normalized
    illuminance := illuminance
    world2light := matrix4x4_multiply scale_bias light_world2clip
    shadow_map := default_shadow_map
    ambient_luminance := ambient_luminance
    base_color := base_color
    metallic := metallic
    roughness := roughness
    reflectance := reflectance }

/-- The mutable rendering state a driver run threads through its frame
loop: the shadow map created in `initialize_rendering` and the main
framebuffer. -/
structure DriverState where
  shadow_map_state : depthTexture
  main_fb : framebufferM

/-- The state `initialize_rendering` establishes (src/anim_violin.c lines
51-66): the shadow map is the 1×1 depth texture pre-filled with `1.0`; the
main framebuffer's freshly created attachments are taken as input. -/
def initState (fb : framebufferM) : DriverState :=
  { shadow_map_state := default_shadow_map, main_fb := fb }

/-- The effect of `render_model` on the main framebuffer (src/anim_violin.c
lines 76-128): clear the framebuffer with clear color `(0,0,0,0)` (lines
80-81; the pipeline's depth clear value is the parameter `dclear`), then
issue one `draw_triangle` call per mesh triangle against `framebuffer`.
Each draw call's effect on the framebuffer is abstracted as a function,
since the rasterizer's sources are not in this repository; `render_model`
touches no other rendering state — in particular it never writes the
shadow map or the shadow framebuffer. -/
def renderModelWith (draws : List (framebufferM → framebufferM)) (dclear : ℚ)
    (fb : framebufferM) : framebufferM :=
  draws.foldl (fun s f => f s) (clear_framebuffer fb ⟨0, 0, 0, 0⟩ dclear)

/-- One iteration of a driver's frame loop, as it acts on the rendering
state: `render_model` updates the main framebuffer and leaves the shadow
map untouched (no depth-only shadow pass exists in either driver). -/
def renderFrameStep (draws : List (framebufferM → framebufferM)) (dclear : ℚ)
    (s : DriverState) : DriverState :=
  { s with main_fb := renderModelWith draws dclear s.main_fb }

/-- The rendering state after the first `n` frames of a driver run, where
`framesDraws i` is the draw-call batch frame `i` issues. -/
def simulate (framesDraws : ℕ → List (framebufferM → framebufferM))
    (dclear : ℚ) (fb0 : framebufferM) : ℕ → DriverState
  | 0 => initState fb0
  | n + 1 => renderFrameStep (framesDraws n) dclear (simulate framesDraws dclear fb0 n)

/-- The C format `"%.3d"` used in both drivers' `sprintf` calls: the frame
index printed in decimal, zero-padded on the left to at least three
digits. -/
def pad3 (i : ℕ) : String :=
  if i < 10 then "00" ++ toString i
  else if i < 100 then "0" ++ toString i
  else toString i

/-- The file name the violin driver builds for frame `i`
(src/anim_violin.c line 181): `sprintf(image_name, "violin/v-%.3d.tga", i)`. -/
def violin_image_name (i : ℕ) : String := "violin/v-" ++ pad3 i ++ ".tga"

/-- The file name the eagle driver builds for frame `i` (eagle driver line
177): `sprintf(image_name, "eagle/e-%.3d.tga", i)`. -/
def eagle_image_name (i : ℕ) : String := "eagle/e-" ++ pad3 i ++ ".tga"

/-- The ordered list of file names the violin driver's frame loop passes to
`save_image`, one per frame (src/anim_violin.c lines 166-183). -/
def violin_saved_files : List String := (List.range frame_count).map violin_image_name

/-- The ordered list of file names the eagle driver's frame loop passes to
`save_image`, one per frame (eagle driver lines 169-179). -/
def eagle_saved_files : List String := (List.range frame_count).map eagle_image_name

/-- The numeric value of a decimal digit character. -/
def charDigit (c : Char) : ℕ := c.toNat - 48

/-- Read the three-digit zero-padded frame index embedded in a saved file
name, `skip` characters after its start. -/
def decodeIndex (skip : ℕ) (s : String) : ℕ :=
  match (s.data.drop skip).take 3 with
  | [a, b, c] => 100 * charDigit a + 10 * charDigit b + charDigit c
  | _ => 0

/-- The externally observable outcome of one driver run: what was printed,
how many frames `render_model` rendered, which files `save_image` saved,
which resource handles had their destroy call issued, and the process exit
code. -/
structure DriverTrace where
  printed : List String
  rendered_frames : ℕ
  saved_files : List String
  mesh_destroyed : Bool
  base_color_map_destroyed : Bool
  normal_map_destroyed : Bool
  metallic_map_destroyed : Bool
  roughness_map_destroyed : Bool
  exit_code : ℤ

/-- The violin driver's `main` (src/anim_violin.c lines 130-192) as a
function of which loads succeed: `mesh_ok` is whether `load_mesh` returns
non-null, and the four `*_ok` flags are whether the four `load_image` calls
return non-null.  On mesh failure it prints and returns 0 before creating
anything else; on any texture failure it prints, destroys the mesh and
issues `destroy_texture` on all four texture handles (a null handle makes
the call a no-op), and returns 0; otherwise it renders and saves one image
per frame and destroys everything at the end. -/
def violin_main (mesh_ok base_ok normal_ok metallic_ok roughness_ok : Bool) : DriverTrace :=
  if mesh_ok = false then
    { printed := ["Cannot load .obj file."], rendered_frames := 0, saved_files := [],
      mesh_destroyed := false, base_color_map_destroyed := false,
      normal_map_destroyed := false, metallic_map_destroyed := false,
      roughness_map_destroyed := false, exit_code := 0 }
  else if (base_ok && normal_ok && metallic_ok && roughness_ok) = false then
    { printed := ["Cannot load texture files."], rendered_frames := 0, saved_files := [],
      mesh_destroyed := true, base_color_map_destroyed := true,
      normal_map_destroyed := true, metallic_map_destroyed := true,
      roughness_map_destroyed := true, exit_code := 0 }
  else
    { printed := [], rendered_frames := frame_count, saved_files := violin_saved_files,
      mesh_destroyed := true, base_color_map_destroyed := true,
      normal_map_destroyed := true, metallic_map_destroyed := true,
      roughness_map_destroyed := true, exit_code := 0 }

/-- The eagle driver's `main` (eagle driver lines 130-188) as a function of
which loads succeed: `mesh_ok` for `load_mesh`, `base_ok` for the single
`load_image` call, and the three `*_created` flags for the `create_texture`
calls that build the 1×1 default normal/metallic/roughness textures.  The
shape is the violin driver's: print and exit 0 on mesh failure; on any
null texture handle print, destroy the mesh and issue `destroy_texture` on
all four handles, and exit 0; otherwise render, save one image per frame,
destroy everything. -/
def eagle_main (mesh_ok base_ok normal_created metallic_created roughness_created : Bool) :
    DriverTrace :=
  if mesh_ok = false then
    { printed := ["Cannot load .obj file."], rendered_frames := 0, saved_files := [],
      mesh_destroyed := false, base_color_map_destroyed := false,
      normal_map_destroyed := false, metallic_map_destroyed := false,
      roughness_map_destroyed := false, exit_code := 0 }
  else if (base_ok && normal_created && metallic_created && roughness_created) = false then
    { printed := ["Cannot load texture files."], rendered_frames := 0, saved_files := [],
      mesh_destroyed := true, base_color_map_destroyed := true,
      normal_map_destroyed := true, metallic_map_destroyed := true,
      roughness_map_destroyed := true, exit_code := 0 }
  else
    { printed := [], rendered_frames := frame_count, saved_files := eagle_saved_files,
      mesh_destroyed := true, base_color_map_destroyed := true,
      normal_map_destroyed := true, metallic_map_destroyed := true,
      roughness_map_destroyed := true, exit_code := 0 }

/-- The value of both drivers' `frame_count`: 135 frames. -/
theorem frame_count_eq_135 : frame_count = 135 := by
  simp only [frame_count, ANIMATION_TIME, FPS]
  norm_num
  rfl

/-- The clamp of any rational to `[0, 1]` is at most `1`. -/
theorem clamp01_le_one (q : ℚ) : clamp01 q ≤ 1 :=
  max_le (by norm_num) (min_le_left _ _)

/-- C1: with the drivers' 1×1 depth shadow map pre-filled with `1.0`, the
standard fragment shader's shadow factor evaluates to fully lit (`1.0`) for
every fragment, regardless of the fragment's world position and of the
`world2light` matrix in the uniform block, for any non-negative depth
bias. -/
theorem C1_default_shadow_map_fully_lit :
    ∀ (world2light : matrix4x4) (world_position : vector3) (bias : ℚ),
      0 ≤ bias →
      shadow_factor world2light world_position default_shadow_map bias = 1 := by
  intro world2light world_position bias hbias
  simp only [shadow_factor, default_shadow_map, sample_depth]
  rw [if_pos]
  have h1 : clamp01 (applyHomogeneous world2light world_position).z ≤ 1 :=
    clamp01_le_one _
  linarith

/-- Witness for C1 at the zero `world2light` matrix (the drivers' actual
value), the world origin, and bias `0`. -/
theorem C1_default_shadow_map_fully_lit_witness :
    shadow_factor matrix4x4_zero ⟨0, 0, 0⟩ default_shadow_map 0 = 1 :=
  C1_default_shadow_map_fully_lit matrix4x4_zero ⟨0, 0, 0⟩ 0 le_rfl

/-- C2: in both drivers `light_world2clip` keeps its zero-initialized
value, every frame's `uniform.world2light` equals the scale-bias matrix
times the all-zero matrix — which is the zero matrix — no frame's
`render_model` ever touches the shadow map (the depth-only shadow pass
never executes), and the 1×1 shadow map holds the value `1.0` set at
initialization after any number of frames. -/
theorem C2_shadow_state_invariant :
    light_world2clip = matrix4x4_zero ∧
    matrix4x4_multiply scale_bias matrix4x4_zero = matrix4x4_zero ∧
    (∀ (l2w w2c : matrix4x4) (cp ld il al bc : vector3) (me ro re : ℚ),
      (mkStandardUniform l2w w2c cp ld il al bc me ro re).world2light = matrix4x4_zero) ∧
    (∀ (draws : List (framebufferM → framebufferM)) (dclear : ℚ) (s : DriverState),
      (renderFrameStep draws dclear s).shadow_map_state = s.shadow_map_state) ∧
    (∀ (framesDraws : ℕ → List (framebufferM → framebufferM)) (dclear : ℚ)
      (fb0 : framebufferM) (n x y : ℕ),
      (simulate framesDraws dclear fb0 n).shadow_map_state.pix x y = 1) := by
  have hmul : matrix4x4_multiply scale_bias matrix4x4_zero = matrix4x4_zero := by
    simp only [matrix4x4_multiply, matrix4x4_zero, scale_bias, vector4_dot,
      matrix4x4_col0, matrix4x4_col1, matrix4x4_col2, matrix4x4_col3,
      matrix4x4.mk.injEq, vector4.mk.injEq]
    norm_num
  refine ⟨rfl, hmul, ?_, ?_, ?_⟩
  · intro l2w w2c cp ld il al bc me ro re
    simpa only [mkStandardUniform, light_world2clip] using hmul
  · intro draws dclear s
    rfl
  · intro framesDraws dclear fb0 n x y
    induction n with
    | zero => rfl
    | succ k ih => simpa only [simulate, renderFrameStep] using ih

/-- C3: the eagle driver's animation loop runs exactly 135 frames, the
rotation at frame `i` is `float_lerp 0 (-0.94) (i / 135)`, frame 0 yields
exactly `0`, frame 134 yields `-0.94 * 134 / 135`, and the end value
`-0.94` is never attained by any frame of the loop. -/
theorem C3_eagle_animation_frames :
    frame_count = 135 ∧
    eagle_rotation 0 = 0 ∧
    eagle_rotation 134 = -94/100 * (134/135) ∧
    ∀ i : ℕ, i < frame_count → eagle_rotation i ≠ rotation_y_end := by
  have hfc : frame_count = 135 := frame_count_eq_135
  refine ⟨hfc, ?_, ?_, ?_⟩
  · simp [eagle_rotation, float_lerp]
  · simp only [eagle_rotation, float_lerp, rotation_y_end, hfc]
    norm_num
  · intro i hi
    simp only [eagle_rotation, float_lerp, rotation_y_end, hfc] at *
    intro h
    have hne : (-94/100 : ℚ) ≠ 0 := by norm_num
    have hq : ((i : ℚ) / 135) = 1 := by
      have h' : (-94/100 : ℚ) * ((i : ℚ) / 135) = -94/100 * 1 := by ring_nf; ring_nf at h; linarith
      exact mul_left_cancel₀ hne h'
    have : (i : ℚ) = 135 := by
      field_simp at hq
      exact_mod_cast hq
    have : i = 135 := by exact_mod_cast this
    omega

/-- Witness for C3 at the concrete frame index 134. -/
theorem C3_eagle_animation_frames_witness :
    eagle_rotation 134 ≠ rotation_y_end :=
  C3_eagle_animation_frames.2.2.2 134 (by simp [frame_count_eq_135])

/-- C4: the scale-bias matrix used in both drivers, applied as a homogeneous
transform, maps the light clip-space corner `(-1,-1,-1)` exactly to `(0,0,0)`
and the corner `(1,1,1)` exactly to `(1,1,1)`, and remaps each component of
the cube `[-1,1]³` into `[0,1]³`. -/
theorem C4_scale_bias_remap :
    applyHomogeneous scale_bias ⟨-1, -1, -1⟩ = ⟨0, 0, 0⟩ ∧
    applyHomogeneous scale_bias ⟨1, 1, 1⟩ = ⟨1, 1, 1⟩ ∧
    ∀ p : vector3, -1 ≤ p.x → p.x ≤ 1 → -1 ≤ p.y → p.y ≤ 1 → -1 ≤ p.z → p.z ≤ 1 →
      (0 ≤ (applyHomogeneous scale_bias p).x ∧ (applyHomogeneous scale_bias p).x ≤ 1) ∧
      (0 ≤ (applyHomogeneous scale_bias p).y ∧ (applyHomogeneous scale_bias p).y ≤ 1) ∧
      (0 ≤ (applyHomogeneous scale_bias p).z ∧ (applyHomogeneous scale_bias p).z ≤ 1) := by
  refine ⟨?_, ?_, ?_⟩
  · simp only [applyHomogeneous, scale_bias, matrix4x4_multiply_vector4, vector4_dot,
      vector3.mk.injEq]
    norm_num
  · simp only [applyHomogeneous, scale_bias, matrix4x4_multiply_vector4, vector4_dot,
      vector3.mk.injEq]
    norm_num
  intro p hx0 hx1 hy0 hy1 hz0 hz1
  simp only [applyHomogeneous, scale_bias, matrix4x4_multiply_vector4, vector4_dot]
  norm_num
  refine ⟨⟨?_, ?_⟩, ⟨?_, ?_⟩, ?_, ?_⟩ <;> linarith

/-- Witness for C4 at the concrete interior point `(0, 1/2, -1)`. -/
theorem C4_scale_bias_remap_witness :
    (0 ≤ (applyHomogeneous scale_bias ⟨0, 1/2, -1⟩).x ∧
      (applyHomogeneous scale_bias ⟨0, 1/2, -1⟩).x ≤ 1) ∧
    (0 ≤ (applyHomogeneous scale_bias ⟨0, 1/2, -1⟩).y ∧
      (applyHomogeneous scale_bias ⟨0, 1/2, -1⟩).y ≤ 1) ∧
    (0 ≤ (applyHomogeneous scale_bias ⟨0, 1/2, -1⟩).z ∧
      (applyHomogeneous scale_bias ⟨0, 1/2, -1⟩).z ≤ 1) :=
  C4_scale_bias_remap.2.2 ⟨0, 1/2, -1⟩ (by norm_num) (by norm_num) (by norm_num)
    (by norm_num) (by norm_num) (by norm_num)

/-- C5: in every run of either driver in which loading the mesh or any
texture image fails — returns a null sentinel — the driver prints a
terminal message, issues a destroy call for every resource successfully
created before the failure, invokes `render_model` and `save_image` zero
times, and exits with code 0. -/
theorem C5_load_failure_clean_exit :
    (∀ m b n mt r : Bool, (m = false ∨ b = false ∨ n = false ∨ mt = false ∨ r = false) →
      (violin_main m b n mt r).printed ≠ [] ∧
      (violin_main m b n mt r).rendered_frames = 0 ∧
      (violin_main m b n mt r).saved_files = [] ∧
      (violin_main m b n mt r).exit_code = 0 ∧
      (m = true → (violin_main m b n mt r).mesh_destroyed = true) ∧
      (m = true → b = true → (violin_main m b n mt r).base_color_map_destroyed = true) ∧
      (m = true → n = true → (violin_main m b n mt r).normal_map_destroyed = true) ∧
      (m = true → mt = true → (violin_main m b n mt r).metallic_map_destroyed = true) ∧
      (m = true → r = true → (violin_main m b n mt r).roughness_map_destroyed = true)) ∧
    (∀ m b nc mc rc : Bool, (m = false ∨ b = false) →
      (eagle_main m b nc mc rc).printed ≠ [] ∧
      (eagle_main m b nc mc rc).rendered_frames = 0 ∧
      (eagle_main m b nc mc rc).saved_files = [] ∧
      (eagle_main m b nc mc rc).exit_code = 0 ∧
      (m = true → (eagle_main m b nc mc rc).mesh_destroyed = true) ∧
      (m = true → b = true → (eagle_main m b nc mc rc).base_color_map_destroyed = true) ∧
      (m = true → nc = true → (eagle_main m b nc mc rc).normal_map_destroyed = true) ∧
      (m = true → mc = true → (eagle_main m b nc mc rc).metallic_map_destroyed = true) ∧
      (m = true → rc = true → (eagle_main m b nc mc rc).roughness_map_destroyed = true)) := by
  constructor
  · intro m b n mt r h
    cases m <;> cases b <;> cases n <;> cases mt <;> cases r <;>
      simp_all [violin_main]
  · intro m b nc mc rc h
    cases m <;> cases b <;> cases nc <;> cases mc <;> cases rc <;>
      simp_all [eagle_main]

/-- Witness for C5 on the concrete violin run whose base-color texture load
fails: the mesh, successfully created before the failure, gets destroyed,
no frame is rendered or saved, and the exit is clean. -/
theorem C5_load_failure_clean_exit_witness :
    (violin_main true false true true true).rendered_frames = 0 ∧
    (violin_main true false true true true).saved_files = [] ∧
    (violin_main true false true true true).exit_code = 0 ∧
    (violin_main true false true true true).mesh_destroyed = true :=
  have h := C5_load_failure_clean_exit.1 true false true true true (Or.inr (Or.inl rfl))
  ⟨h.2.1, h.2.2.1, h.2.2.2.1, h.2.2.2.2.1 rfl⟩

/-- C6: a fragment whose barycentric weights equal a vertex's own corner
weights `(1,0,0)`, `(0,1,0)` or `(0,0,1)` receives, after the
perspective-correct reweighting, exactly that vertex's varying value
(whenever that vertex's clip-space `w` is nonzero, as it is for any vertex
the rasterizer processes). -/
theorem C6_perspective_corner_exact :
    ∀ w0 w1 w2 v0 v1 v2 : ℚ,
      (w0 ≠ 0 → interpolateVarying (perspectiveWeights 1 0 0 w0 w1 w2) v0 v1 v2 = v0) ∧
      (w1 ≠ 0 → interpolateVarying (perspectiveWeights 0 1 0 w0 w1 w2) v0 v1 v2 = v1) ∧
      (w2 ≠ 0 → interpolateVarying (perspectiveWeights 0 0 1 w0 w1 w2) v0 v1 v2 = v2) := by
  intro w0 w1 w2 v0 v1 v2
  refine ⟨?_, ?_, ?_⟩ <;> intro hw <;>
    simp only [perspectiveWeights, interpolateVarying, zero_div, add_zero, zero_add] <;>
    rw [div_self (by simpa using inv_ne_zero hw)] <;> ring

/-- Witness for C6 at clip-space `w` components `(2, 3, 4)` and varying
values `(5, 6, 7)`: the corner fragment of vertex 0 reports exactly `5`. -/
theorem C6_perspective_corner_exact_witness :
    interpolateVarying (perspectiveWeights 1 0 0 2 3 4) 5 6 7 = 5 :=
  (C6_perspective_corner_exact 2 3 4 5 6 7).1 (by norm_num)

/-- C7: a degenerate input triangle — zero signed area of the three
projected vertices — covers zero pixels, and no reciprocal of the zero
determinant is ever formed, because `coveredPixels` tests the determinant
before dividing by it. -/
theorem C7_degenerate_covers_nothing :
    ∀ (v0 v1 v2 : ℚ × ℚ) (candidates : List (ℚ × ℚ)),
      signedArea v0 v1 v2 = 0 → coveredPixels v0 v1 v2 candidates = [] := by
  intro v0 v1 v2 candidates h
  have hd : triangleDet v0 v1 v2 = 0 := by
    have := h
    simp only [signedArea] at this
    linarith
  simp [coveredPixels, hd]

/-- Witness for C7 on the concrete degenerate triangle with all three
vertices on one line, against a one-pixel candidate list. -/
theorem C7_degenerate_covers_nothing_witness :
    coveredPixels (0, 0) (1, 1) (2, 2) [(1, 0)] = [] :=
  C7_degenerate_covers_nothing (0, 0) (1, 1) (2, 2) [(1, 0)]
    (by norm_num [signedArea, triangleDet, edge_function])

/-- C8: after invoking clear with clear color `(0,0,0,0)` — as both drivers
do via `set_clear_color(0.0f, 0.0f, 0.0f, 0.0f); clear_framebuffer(framebuffer);`
— sampling any pixel of the color attachment before any draw call returns
exactly `(0,0,0,0)`, and every pixel of the attached depth texture holds the
depth clear value. -/
theorem C8_clear_semantics :
    ∀ (fb : framebufferM) (d : ℚ) (x y : ℕ),
      (clear_framebuffer fb ⟨0, 0, 0, 0⟩ d).color.pix x y = ⟨0, 0, 0, 0⟩ ∧
      (clear_framebuffer fb ⟨0, 0, 0, 0⟩ d).depth.pix x y = d := by
  intro fb d x y
  exact ⟨rfl, rfl⟩

/-- C9: each driver's frame loop saves exactly one image per frame index
`i` in `[0, 135)`, in loop order; the name saved at position `i` embeds `i`
zero-padded to three decimal digits (after the fixed `"violin/v-"` prefix of
length 9, respectively `"eagle/e-"` of length 8), so frame indices and file
names are in one-to-one order-preserving correspondence. -/
theorem C9_one_image_per_frame :
    violin_saved_files.length = frame_count ∧
    eagle_saved_files.length = frame_count ∧
    frame_count = 135 ∧
    (∀ i : ℕ, i < frame_count → violin_saved_files[i]? = some (violin_image_name i)) ∧
    (∀ i : ℕ, i < frame_count → eagle_saved_files[i]? = some (eagle_image_name i)) ∧
    (∀ i : ℕ, i < frame_count → decodeIndex 9 (violin_image_name i) = i) ∧
    (∀ i : ℕ, i < frame_count → decodeIndex 8 (eagle_image_name i) = i) ∧
    (∀ i j : ℕ, i < frame_count → j < frame_count →
      violin_image_name i = violin_image_name j → i = j) ∧
    (∀ i j : ℕ, i < frame_count → j < frame_count →
      eagle_image_name i = eagle_image_name j → i = j) := by
  have hv : ∀ i : ℕ, i < 135 → decodeIndex 9 (violin_image_name i) = i := by decide
  have he : ∀ i : ℕ, i < 135 → decodeIndex 8 (eagle_image_name i) = i := by decide
  refine ⟨by simp [violin_saved_files], by simp [eagle_saved_files], frame_count_eq_135,
    ?_, ?_, ?_, ?_, ?_, ?_⟩
  · intro i hi
    simp [violin_saved_files, List.getElem?_map, List.getElem?_range, hi]
  · intro i hi
    simp [eagle_saved_files, List.getElem?_map, List.getElem?_range, hi]
  · intro i hi
    exact hv i (frame_count_eq_135 ▸ hi)
  · intro i hi
    exact he i (frame_count_eq_135 ▸ hi)
  · intro i j hi hj heq
    have h1 := hv i (frame_count_eq_135 ▸ hi)
    have h2 := hv j (frame_count_eq_135 ▸ hj)
    rw [← h1, ← h2, heq]
  · intro i j hi hj heq
    have h1 := he i (frame_count_eq_135 ▸ hi)
    have h2 := he j (frame_count_eq_135 ▸ hj)
    rw [← h1, ← h2, heq]

/-- Witness for C9: positions 0 and 134 of the drivers' save lists hold
exactly the names embedding those frame indices. -/
theorem C9_one_image_per_frame_witness :
    violin_saved_files[0]? = some (violin_image_name 0) ∧
    eagle_saved_files[134]? = some (eagle_image_name 134) :=
  ⟨C9_one_image_per_frame.2.2.2.1 0 (by simp [frame_count_eq_135]),
   C9_one_image_per_frame.2.2.2.2.1 134 (by simp [frame_count_eq_135])⟩

/-- C10: the color buffer `render_model` leaves behind — the image
`save_image` persists — is independent of the framebuffer contents any
previous frame left: because the framebuffer is cleared before any draw
call, two runs that reach a frame with the same draw-call batch but
different prior color and depth contents produce identical framebuffers,
and in particular identical color buffers. -/
theorem C10_frame_independent_of_prior_contents :
    ∀ (draws : List (framebufferM → framebufferM)) (dclear : ℚ) (w h : ℕ)
      (cpix1 cpix2 : ℕ → ℕ → vector4) (dpix1 dpix2 : ℕ → ℕ → ℚ),
      renderModelWith draws dclear ⟨⟨w, h, cpix1⟩, ⟨w, h, dpix1⟩⟩ =
        renderModelWith draws dclear ⟨⟨w, h, cpix2⟩, ⟨w, h, dpix2⟩⟩ ∧
      (renderModelWith draws dclear ⟨⟨w, h, cpix1⟩, ⟨w, h, dpix1⟩⟩).color =
        (renderModelWith draws dclear ⟨⟨w, h, cpix2⟩, ⟨w, h, dpix2⟩⟩).color := by
  intro draws dclear w h cpix1 cpix2 dpix1 dpix2
  have h1 : clear_framebuffer (⟨⟨w, h, cpix1⟩, ⟨w, h, dpix1⟩⟩ : framebufferM)
      ⟨0, 0, 0, 0⟩ dclear =
      clear_framebuffer (⟨⟨w, h, cpix2⟩, ⟨w, h, dpix2⟩⟩ : framebufferM)
      ⟨0, 0, 0, 0⟩ dclear := rfl
  have h2 : renderModelWith draws dclear ⟨⟨w, h, cpix1⟩, ⟨w, h, dpix1⟩⟩ =
      renderModelWith draws dclear ⟨⟨w, h, cpix2⟩, ⟨w, h, dpix2⟩⟩ := by
    simp only [renderModelWith, h1]
  exact ⟨h2, by rw [h2]⟩
